import Mathlib

/-!
Verification of the random-walk Metropolis repository against its
natural-language specification.

The development shallowly embeds the two source files:
* `src/interfaces/simulation.py` — the `MCMCSimulation` orchestrator
  (single-run semantics, burn-in clamping, seeding, diagnostics);
* `src/experiment_RWM_GPU.py` — the sweep layer (`run_study`,
  `get_target_distribution`, dimension helpers).

Real-valued machine arithmetic is embedded over `ℚ` so that every definition
is executable and every concrete run can be evaluated by `decide`.  Parts of
the repository that the source tree does not contain (notably
`src/interfaces/metropolis.py`, the `MHAlgorithm` class, and the GPU
simulation class) are modelled from the specification; each such definition
carries a doc comment saying exactly what is modelled.
-/

namespace RWM

deriving instance DecidableEq for Except

/-- A point of the state space: a finite sequence of rational coordinates.
The source represents points as arrays of floats; rationals keep the
arithmetic exact and decidable. -/
abbrev Point := List ℚ

/-- Modelled from the spec (§5, §9): one advance of the process-global
pseudo-random generator.  The source draws from the numpy global RNG, whose
internals are not part of the repository; the generator is modelled as a
natural-number state advanced by a linear-congruential rule. -/
def rngNext (g : ℕ) : ℕ :=
  (g * 1103515245 + 12345) % 2147483648

/-- Modelled from the spec: the effect of `np.random.seed(s)` on the global
generator state — the state becomes a deterministic function of the seed
alone, independent of the previous state. -/
def npSeed (s : ℤ) : ℕ :=
  s.natAbs % 4294967296

/-- The seeding performed by `MCMCSimulation.__init__`
(src/interfaces/simulation.py lines 32-33): `if seed: np.random.seed(seed)`.
The generator is reseeded only when `seed` is truthy, i.e. neither `None`
nor `0`. -/
def seedEffect (seed : Option ℤ) (g : ℕ) : ℕ :=
  match seed with
  | none => g
  | some s => if s = 0 then g else npSeed s

/-- The observable state of an `MCMCSimulation` (src/interfaces/simulation.py).
`num_iterations` and `burn_in` are the stored constructor fields; `chain` and
`accepted` live on the owned algorithm object (`src/interfaces/metropolis.py`
is not under src/, so those two fields follow the spec §3: the Chain is the
append-only history, index 0 the initial state, plus the accepted-count
diagnostic); `rng` is the process-global generator state threaded through. -/
structure SimState where
  num_iterations : ℤ
  burn_in : ℤ
  dim : ℕ
  chain : List Point
  accepted : ℕ
  rng : ℕ
deriving DecidableEq

/-- `MCMCSimulation.__init__` (src/interfaces/simulation.py lines 12-33):
stores `num_iterations`, clamps the burn-in by
`max(0, min(burn_in, num_iterations - 1))`, constructs the algorithm with a
fresh one-element chain (modelled initial state: the all-zero point), and
then seeds the global generator only when `seed` is truthy.  No validation of
`num_iterations` (or anything else) is performed and no exception can be
raised. -/
def mkSimulation (dim : ℕ) (num_iterations : ℤ) (burn_in : ℤ)
    (seed : Option ℤ) (g : ℕ) : SimState :=
  { num_iterations := num_iterations
  , burn_in := max 0 (min burn_in (num_iterations - 1))
  , dim := dim
  , chain := [List.replicate dim 0]
  , accepted := 0
  , rng := seedEffect seed g }

/-- Modelled from the spec (§4.2): `ProposalGenerator.sample` returns
`current + displacement` with the displacement derived from one generator
draw.  The exact Gaussian/Laplace/uniform laws are real-valued and not part
of src/; a symmetric integer-valued stand-in with support `-3 … 3` keeps the
structure (a deterministic function of the generator state). -/
def propose (x : Point) (g : ℕ) : Point :=
  x.map (fun c => c + ((g % 7 : ℕ) : ℚ) - 3)

/-- Modelled from the spec (§4.3): one `MHAlgorithm.step`
(src/interfaces/metropolis.py is not under src/): propose a candidate `y`
from the current state `x`, let `log_ratio = min(0, log_density y −
log_density x)`, draw `log u ≤ 0` from the generator, accept iff
`log u ≤ log_ratio`; on acceptance append `y` and bump the accepted counter,
otherwise append `x` again.  Either way the chain grows by exactly one
point and the generator advances. -/
def stepSim (ld : Point → ℚ) (s : SimState) : SimState :=
  let x := s.chain.getLastD []
  let g1 := rngNext s.rng
  let y := propose x g1
  let g2 := rngNext g1
  let logu : ℚ := -(((g2 % 100 : ℕ) : ℚ) / 10)
  let logRatio : ℚ := min 0 (ld y - ld x)
  if logu ≤ logRatio then
    { s with chain := s.chain ++ [y], accepted := s.accepted + 1, rng := g2 }
  else
    { s with chain := s.chain ++ [x], rng := g2 }

/-- The loop body of `generate_samples` (src/interfaces/simulation.py lines
49-52): `n` iterated calls to `step()`. -/
def runSteps (ld : Point → ℚ) : ℕ → SimState → SimState
  | 0, s => s
  | n + 1, s => runSteps ld n (stepSim ld s)

/-- `MCMCSimulation.has_run` (src/interfaces/simulation.py lines 40-42):
`len(self.algorithm.chain) > 1`. -/
def has_run (s : SimState) : Bool :=
  s.chain.length > 1

/-- `MCMCSimulation.generate_samples` (src/interfaces/simulation.py lines
44-54): raises `ValueError` when the algorithm has already been run,
otherwise performs `range(num_iterations)` calls to `step()` (no step at all
when `num_iterations ≤ 0`) and returns the completed state. -/
def generate_samples (ld : Point → ℚ) (s : SimState) : Except String SimState :=
  if has_run s then
    .error "Please reset the algorithm before running it again."
  else
    .ok (runSteps ld s.num_iterations.toNat s)

/-- `MCMCSimulation.reset` (src/interfaces/simulation.py lines 36-38)
delegates to `MHAlgorithm.reset`, which is not under src/; modelled from the
spec (§3 RunState): return to `Initialized`, clearing the Chain back to its
initial one-element state and the accepted-count diagnostic.  The stored
configuration and the process-global generator are untouched. -/
def reset (s : SimState) : SimState :=
  { s with chain := [List.replicate s.dim 0], accepted := 0 }

/-- `MCMCSimulation.acceptance_rate` (src/interfaces/simulation.py lines
56-60): raises `ValueError` before a run; the returned value
`self.algorithm.acceptance_rate` lives on the missing algorithm class and is
modelled from the spec (§3 Diagnostics): `accepted_count / num_iterations`. -/
def acceptance_rate (s : SimState) : Except String ℚ :=
  if !(has_run s) then
    .error "The algorithm has not been run yet."
  else
    .ok ((s.accepted : ℚ) / (s.num_iterations : ℚ))

/-- Squared Euclidean distance between two points: the per-coordinate
squared differences summed (the `np.sum((a - b) ** 2, axis=1)` of
src/interfaces/simulation.py lines 75 and 78, for one row). -/
def sqDist (p q : Point) : ℚ :=
  (List.zipWith (fun a b => (a - b) ^ 2) p q).sum

/-- The squared jumps of a chain: squared distances between each pair of
consecutive states (`chain[1:] - chain[:-1]` row-wise). -/
def squaredJumps (chain : List Point) : List ℚ :=
  List.zipWith sqDist chain chain.tail

/-- `np.mean` of a list of rationals: sum divided by length. -/
def meanQ (l : List ℚ) : ℚ :=
  l.sum / (l.length : ℚ)

/-- `MCMCSimulation.expected_squared_jump_distance`
(src/interfaces/simulation.py lines 62-81): raises `ValueError` before a
run; when `burn_in > 0 and len(chain) > burn_in + 1` returns the mean squared
jump of the suffix `chain[burn_in:]`; when `burn_in == 0` returns the mean
squared jump of the whole chain; otherwise returns `0.0`. -/
def expected_squared_jump_distance (s : SimState) : Except String ℚ :=
  if !(has_run s) then
    .error "The algorithm has not been run yet."
  else if s.burn_in > 0 ∧ (s.chain.length : ℤ) > s.burn_in + 1 then
    .ok (meanQ (squaredJumps (s.chain.drop s.burn_in.toNat)))
  else if s.burn_in = 0 then
    .ok (meanQ (squaredJumps s.chain))
  else
    .ok 0

/-- One complete construct-and-run cycle: construct the simulation from the
configuration tuple and the ambient global generator state `g`, then call
`generate_samples`.  A freshly constructed simulation has a one-element
chain, so the run always succeeds; the error arm is dead. -/
def runOnce (ld : Point → ℚ) (dim : ℕ) (n b : ℤ) (seed : Option ℤ)
    (g : ℕ) : SimState :=
  match generate_samples ld (mkSimulation dim n b seed g) with
  | .ok s => s
  | .error _ => mkSimulation dim n b seed g

/-- Modelled from the spec (§4.1): a concrete target log-density used to
instantiate witnesses — the constant-zero log-density (a flat target), under
which every proposal is accepted. -/
def flatLogDensity : Point → ℚ := fun _ => 0

/-- `calculate_hybrid_rosenbrock_dim` (src/experiment_RWM_GPU.py lines
13-15): `1 + n2 * (n1 - 1)`. -/
def calculate_hybrid_rosenbrock_dim (n1 n2 : ℤ) : ℤ :=
  1 + n2 * (n1 - 1)

/-- `calculate_super_funnel_dim` (src/experiment_RWM_GPU.py lines 17-19):
`J + J*K + 1 + K + 1 + 1`. -/
def calculate_super_funnel_dim (J K : ℤ) : ℤ :=
  J + J * K + 1 + K + 1 + 1

/-- The target family names accepted by the `use_torch=True` branch of
`get_target_distribution` (src/experiment_RWM_GPU.py lines 28-123), which is
the branch `run_study` invokes. -/
def supportedTargets : List String :=
  ["MultivariateNormal", "MultivariateNormalScaled", "RoughCarpet",
   "RoughCarpetScaled", "ThreeMixture", "ThreeMixtureScaled", "Hypercube",
   "IIDGamma", "IIDBeta", "FullRosenbrock", "EvenRosenbrock",
   "HybridRosenbrock", "NealFunnel", "SuperFunnel"]

/-- The proposal family names accepted by the sweep loop of `run_study`
(src/experiment_RWM_GPU.py lines 216-243). -/
def supportedProposals : List String :=
  ["Normal", "Laplace", "UniformRadius"]

/-- `get_target_distribution` (src/experiment_RWM_GPU.py lines 21-123) for
the `use_torch=True` branch used by `run_study`: dispatches on the family
name and raises `ValueError("Unknown target distribution name")` for any
other name.  The constructed distribution object is abstracted to its family
tag — the claims about this layer concern only the dispatch and the sweep
record, never the density values. -/
def get_target_distribution (name : String) : Except String String :=
  if name ∈ supportedTargets then .ok name
  else .error "Unknown target distribution name"

/-- A proposal configuration as built by the sweep loop
(src/experiment_RWM_GPU.py lines 216-241), with the isotropic Laplace case
(no `anisotropic` entry in `proposal_params`). -/
inductive ProposalConfig where
  | normal (base_variance_scalar : ℚ)
  | laplace (base_variance_vector : ℚ)
  | uniformRadius (base_radius : ℚ)
deriving DecidableEq

/-- The per-grid-point proposal-configuration derivation of `run_study`
(src/experiment_RWM_GPU.py lines 215-243): `Normal` and `Laplace` map the
scale parameter to the variance `scale_param ** 2 / actual_dim`;
`UniformRadius` uses the scale parameter directly as the radius; any other
proposal name raises `ValueError("Unknown proposal name: ...")`. -/
def mkProposalConfig (proposal_name : String) (actual_dim : ℤ)
    (scale_param : ℚ) : Except String ProposalConfig :=
  if proposal_name = "Normal" then
    .ok (.normal (scale_param ^ 2 / (actual_dim : ℚ)))
  else if proposal_name = "Laplace" then
    .ok (.laplace (scale_param ^ 2 / (actual_dim : ℚ)))
  else if proposal_name = "UniformRadius" then
    .ok (.uniformRadius scale_param)
  else
    .error ("Unknown proposal name: " ++ proposal_name)

/-- `np.linspace a b n` for `n ≥ 2`: `n` evenly spaced points from `a` to
`b` inclusive (src/experiment_RWM_GPU.py line 202 uses
`np.linspace(0.01, var_max, 40)`). -/
def linspace (a b : ℚ) (n : ℕ) : List ℚ :=
  (List.range n).map (fun i : ℕ => a + (b - a) * (i : ℚ) / ((n : ℚ) - 1))

/-- Maximum of a list of rationals (Python `max` on a nonempty list;
`0` as a don't-care value on the empty list). -/
def maxList : List ℚ → ℚ
  | [] => 0
  | [x] => x
  | x :: y :: ys => max x (maxList (y :: ys))

/-- `np.argmax`: the first index attaining the maximum (`0` on the empty
list). -/
def argmaxIdx : List ℚ → ℕ
  | [] => 0
  | [_] => 0
  | x :: y :: ys => if maxList (y :: ys) > x then argmaxIdx (y :: ys) + 1 else 0

/-- The sweep loop of `run_study` (src/experiment_RWM_GPU.py lines 213-266):
for each scale parameter in order, derive the proposal configuration (an
unknown proposal name raises on the first iteration, before any simulation
is created) and record the pair `(acceptance_rate, expected_squared_jump_distance)`
produced by the per-grid-point simulation.  The `MCMCSimulation_GPU` run
itself is not under src/ and is passed in as the function `simulate`. -/
def sweepLoop (simulate : ProposalConfig → ℚ × ℚ) (proposal_name : String)
    (actual_dim : ℤ) : List ℚ → Except String (List (ℚ × ℚ))
  | [] => .ok []
  | scale :: rest =>
    match mkProposalConfig proposal_name actual_dim scale with
    | .error e => .error e
    | .ok config =>
      match sweepLoop simulate proposal_name actual_dim rest with
      | .error e => .error e
      | .ok rs => .ok (simulate config :: rs)

/-- The flat result record persisted by `run_study`
(src/experiment_RWM_GPU.py lines 283-297), elapsed-time fields omitted
(wall-clock time is not representable in the embedding). -/
structure StudyData where
  target_distribution : String
  proposal_distribution : String
  dimension : ℤ
  num_iterations : ℤ
  seed : ℤ
  max_esjd : ℚ
  max_acceptance_rate : ℚ
  max_scale_param : ℚ
  expected_squared_jump_distances : List ℚ
  acceptance_rates : List ℚ
  scale_param_range : List ℚ
deriving DecidableEq

/-- A zero-filled `StudyData`, used only as the don't-care default when
destructuring an `Except` known to be `ok`. -/
def emptyStudyData : StudyData :=
  { target_distribution := ""
  , proposal_distribution := ""
  , dimension := 0
  , num_iterations := 0
  , seed := 0
  , max_esjd := 0
  , max_acceptance_rate := 0
  , max_scale_param := 0
  , expected_squared_jump_distances := []
  , acceptance_rates := []
  , scale_param_range := [] }

/-- `run_study` (src/experiment_RWM_GPU.py lines 165-301): derive the actual
dimension (special-cased for `HybridRosenbrock` and `SuperFunnel`), resolve
the target family (an unknown name raises before the grid is touched),
enumerate the 40-point scale grid `np.linspace(0.01, var_max, 40)`, run one
simulation per grid point, then persist the record in which `max_esjd` is
the maximum of the ESJD series, `max_esjd_index = np.argmax` of that series,
and `max_acceptance_rate` / `max_scale_param` are the entries of the
acceptance and scale series at that index (lines 270-273).  An error on any
earlier line means the `json.dump` on lines 299-301 never executes, so an
`Except.error` result is exactly "no output record written".  The
per-grid-point `MCMCSimulation_GPU` run is not under src/ and is passed in
as `simulate`. -/
def run_study (simulate : ProposalConfig → ℚ × ℚ) (dim : ℤ)
    (target_name : String) (num_iters : ℤ) (var_max : ℚ) (seed : ℤ)
    (proposal_name : String) (n1 n2 J K : ℤ) : Except String StudyData :=
  let actual_dim : ℤ :=
    if target_name = "HybridRosenbrock" then calculate_hybrid_rosenbrock_dim n1 n2
    else if target_name = "SuperFunnel" then calculate_super_funnel_dim J K
    else dim
  match get_target_distribution target_name with
  | .error e => .error e
  | .ok _ =>
    let scale_param_range := linspace (1 / 100) var_max 40
    match sweepLoop simulate proposal_name actual_dim scale_param_range with
    | .error e => .error e
    | .ok results =>
      let acceptance_rates := results.map Prod.fst
      let esjds := results.map Prod.snd
      let max_esjd_index := argmaxIdx esjds
      .ok { target_distribution := target_name
          , proposal_distribution := proposal_name
          , dimension := actual_dim
          , num_iterations := num_iters
          , seed := seed
          , max_esjd := maxList esjds
          , max_acceptance_rate := acceptance_rates.getD max_esjd_index 0
          , max_scale_param := scale_param_range.getD max_esjd_index 0
          , expected_squared_jump_distances := esjds
          , acceptance_rates := acceptance_rates
          , scale_param_range := scale_param_range }

/-- A constant per-grid-point simulation outcome (acceptance rate `1/2`,
ESJD `3`), used to instantiate the sweep-layer witnesses. -/
def constSimulate : ProposalConfig → ℚ × ℚ := fun _ => (1 / 2, 3)

/-- A concrete sweep: `run_study` on the constant simulation outcome over
the `MultivariateNormal` target with the `Normal` proposal. -/
def studyRunExample : Except String StudyData :=
  run_study constSimulate 2 "MultivariateNormal" 10 (7 / 2) 42 "Normal" 3 5 5 3

/-- The record persisted by the concrete witness sweep. -/
def studyDataExample : StudyData :=
  studyRunExample.toOption.getD emptyStudyData

/-- The states of an `MCMCSimulation` reachable through its public
interface: a freshly constructed simulation, the result of a successful
`generate_samples`, or the result of `reset` (a failing `generate_samples`
raises before mutating anything, so it adds no state). -/
inductive Reachable (ld : Point → ℚ) : SimState → Prop
  | init (dim : ℕ) (n b : ℤ) (seed : Option ℤ) (g : ℕ) :
      Reachable ld (mkSimulation dim n b seed g)
  | runStep (s t : SimState) :
      Reachable ld s → generate_samples ld s = .ok t → Reachable ld t
  | resetStep (s : SimState) :
      Reachable ld s → Reachable ld (reset s)

/-! ### Helper lemmas -/

theorem stepSim_chain_length (ld : Point → ℚ) (s : SimState) :
    (stepSim ld s).chain.length = s.chain.length + 1 := by
  simp only [stepSim]
  split <;> simp

theorem stepSim_num_iterations (ld : Point → ℚ) (s : SimState) :
    (stepSim ld s).num_iterations = s.num_iterations := by
  simp only [stepSim]
  split <;> rfl

theorem runSteps_chain_length (ld : Point → ℚ) (n : ℕ) (s : SimState) :
    (runSteps ld n s).chain.length = s.chain.length + n := by
  induction n generalizing s with
  | zero => rfl
  | succ k ih =>
    show (runSteps ld k (stepSim ld s)).chain.length = s.chain.length + (k + 1)
    rw [ih, stepSim_chain_length]
    omega

theorem runSteps_num_iterations (ld : Point → ℚ) (n : ℕ) (s : SimState) :
    (runSteps ld n s).num_iterations = s.num_iterations := by
  induction n generalizing s with
  | zero => rfl
  | succ k ih =>
    show (runSteps ld k (stepSim ld s)).num_iterations = s.num_iterations
    rw [ih, stepSim_num_iterations]

theorem reachable_chain_length (ld : Point → ℚ) (s : SimState)
    (h : Reachable ld s) :
    s.chain.length = 1 ∨ s.chain.length = s.num_iterations.toNat + 1 := by
  induction h with
  | init dim n b seed g => left; rfl
  | runStep s t hs hgen ih =>
    unfold generate_samples at hgen
    cases hr : has_run s with
    | true => rw [hr] at hgen; simp at hgen
    | false =>
      rw [hr] at hgen
      simp only [Bool.false_eq_true, if_false, Except.ok.injEq] at hgen
      simp only [has_run, decide_eq_false_iff_not] at hr
      have hlen1 : s.chain.length = 1 := by
        rcases ih with h1 | h2 <;> omega
      right
      rw [← hgen, runSteps_chain_length, runSteps_num_iterations, hlen1]
      omega
  | resetStep s hs ih => left; rfl

theorem maxList_ge : ∀ (l : List ℚ), ∀ x ∈ l, x ≤ maxList l
  | [] => by simp
  | [a] => by
    intro x hx
    simp only [List.mem_singleton] at hx
    subst hx
    exact le_refl _
  | a :: b :: t => by
    intro x hx
    rcases List.mem_cons.mp hx with rfl | hx'
    · exact le_max_left _ _
    · exact le_trans (maxList_ge (b :: t) x hx') (le_max_right _ _)

theorem argmaxIdx_lt : ∀ (l : List ℚ), l ≠ [] → argmaxIdx l < l.length
  | [], h => absurd rfl h
  | [_], _ => by simp [argmaxIdx]
  | a :: b :: t, _ => by
    by_cases h : maxList (b :: t) > a
    · have ih := argmaxIdx_lt (b :: t) (by simp)
      simp only [List.length_cons] at ih
      simp only [argmaxIdx, if_pos h, List.length_cons]
      omega
    · simp [argmaxIdx, if_neg h]

theorem getD_argmaxIdx : ∀ (l : List ℚ), l ≠ [] → l.getD (argmaxIdx l) 0 = maxList l
  | [], h => absurd rfl h
  | [_], _ => by simp [argmaxIdx, maxList]
  | a :: b :: t, _ => by
    by_cases h : maxList (b :: t) > a
    · have ih := getD_argmaxIdx (b :: t) (by simp)
      simp only [argmaxIdx, maxList, if_pos h, List.getD_cons_succ, ih]
      exact (max_eq_right (le_of_lt h)).symm
    · simp only [argmaxIdx, maxList, if_neg h, List.getD_cons_zero]
      exact (max_eq_left (not_lt.mp h)).symm

theorem sweepLoop_ok_length (simulate : ProposalConfig → ℚ × ℚ) (p : String)
    (d : ℤ) : ∀ (l : List ℚ) (rs : List (ℚ × ℚ)),
    sweepLoop simulate p d l = .ok rs → rs.length = l.length
  | [], rs => by
    intro h
    simp only [sweepLoop, Except.ok.injEq] at h
    simp [← h]
  | a :: t, rs => by
    intro h
    simp only [sweepLoop] at h
    split at h
    · simp at h
    · split at h
      · simp at h
      case _ rs' heq =>
        simp only [Except.ok.injEq] at h
        have := sweepLoop_ok_length simulate p d t rs' heq
        simp [← h, this]

theorem linspace_length (a b : ℚ) (n : ℕ) : (linspace a b n).length = n := by
  unfold linspace
  rw [List.length_map, List.length_range]

theorem sweepLoop_unknown_proposal (simulate : ProposalConfig → ℚ × ℚ)
    (p : String) (hp : p ∉ supportedProposals) (d : ℤ) (l : List ℚ)
    (hl : l ≠ []) :
    sweepLoop simulate p d l = .error ("Unknown proposal name: " ++ p) := by
  simp only [supportedProposals, List.mem_cons, List.mem_singleton,
    not_or, List.not_mem_nil] at hp
  cases l with
  | nil => exact absurd rfl hl
  | cons a t =>
    simp [sweepLoop, mkProposalConfig, hp.1, hp.2.1, hp.2.2]

/-! ### Claim theorems -/

/-- C9: for every pair of positive integers `n1`, `n2`, the dimension
computed for the HybridRosenbrock target equals `1 + n2*(n1 - 1)`; in
particular for `n1 = 3`, `n2 = 5` the dimension is exactly `11`. -/
theorem C9_hybrid_rosenbrock_dim :
    (∀ n1 n2 : ℤ, 0 < n1 → 0 < n2 →
      calculate_hybrid_rosenbrock_dim n1 n2 = 1 + n2 * (n1 - 1)) ∧
    calculate_hybrid_rosenbrock_dim 3 5 = 11 :=
  ⟨fun _ _ _ _ => rfl, by decide⟩

/-- Witness for C9: the theorem applied at `n1 = 3`, `n2 = 5`. -/
theorem C9_hybrid_rosenbrock_dim_witness :
    (0 < (3 : ℤ)) ∧ (0 < (5 : ℤ)) ∧
    calculate_hybrid_rosenbrock_dim 3 5 = 1 + 5 * (3 - 1) :=
  ⟨by decide, by decide, C9_hybrid_rosenbrock_dim.1 3 5 (by decide) (by decide)⟩

/-- C10: `MCMCSimulation` construction seeds the generator only when the
supplied seed is truthy — for `seed = 0` or `seed = None` no seeding is
performed, so construction with seed `0` behaves identically to construction
with no seed. -/
theorem C10_seed_zero_no_seeding (dim : ℕ) (n b : ℤ) (g : ℕ) :
    mkSimulation dim n b (some 0) g = mkSimulation dim n b none g ∧
    (mkSimulation dim n b (some 0) g).rng = g ∧
    (mkSimulation dim n b none g).rng = g := by
  refine ⟨?_, ?_, ?_⟩ <;> simp [mkSimulation, seedEffect]

/-- C6: for every integer burn-in passed at construction (including negative
values and values `≥ num_iterations`), the stored burn-in lies in the
interval `[0, num_iterations - 1]` (for the positive iteration counts a
simulation is meant to have). -/
theorem C6_burn_in_clamped (dim : ℕ) (n b : ℤ) (seed : Option ℤ) (g : ℕ)
    (h : 1 ≤ n) :
    0 ≤ (mkSimulation dim n b seed g).burn_in ∧
    (mkSimulation dim n b seed g).burn_in ≤ n - 1 := by
  show 0 ≤ max 0 (min b (n - 1)) ∧ max 0 (min b (n - 1)) ≤ n - 1
  constructor
  · exact le_max_left 0 _
  · exact max_le (by omega) (min_le_right _ _)

/-- Witness for C6: the theorem applied at a negative burn-in and at a
burn-in exceeding the iteration count. -/
theorem C6_burn_in_clamped_witness :
    (1 : ℤ) ≤ 10 ∧
    (0 ≤ (mkSimulation 2 10 (-7) none 0).burn_in ∧
      (mkSimulation 2 10 (-7) none 0).burn_in ≤ 10 - 1) ∧
    (0 ≤ (mkSimulation 2 10 99 none 0).burn_in ∧
      (mkSimulation 2 10 99 none 0).burn_in ≤ 10 - 1) :=
  ⟨by decide, C6_burn_in_clamped 2 10 (-7) none 0 (by decide),
    C6_burn_in_clamped 2 10 99 none 0 (by decide)⟩

/-- C4 counterexample: constructing a simulation with `num_iterations = 0`
(a non-positive value) raises nothing — the constructor has no validation
path at all — and even a full `generate_samples` run succeeds, performing
zero steps.  This contradicts the claim that a `ConfigurationError` is
raised at construction time. -/
theorem C4_counterexample_no_error_on_zero_iters :
    mkSimulation 1 0 3 none 0 =
      { num_iterations := 0, burn_in := 0, dim := 1, chain := [[0]],
        accepted := 0, rng := 0 } ∧
    generate_samples flatLogDensity (mkSimulation 1 0 3 none 0) =
      .ok (mkSimulation 1 0 3 none 0) := by
  constructor <;> rfl

/-- C4 (amended): construction with non-positive `num_iterations` performs
no validation and succeeds; the stored burn-in clamps to `0`, and
`generate_samples` then performs zero steps and returns the simulation in
its initial state. -/
theorem C4_amended_no_validation (ld : Point → ℚ) (dim : ℕ) (n b : ℤ)
    (seed : Option ℤ) (g : ℕ) (h : n ≤ 0) :
    (mkSimulation dim n b seed g).burn_in = 0 ∧
    generate_samples ld (mkSimulation dim n b seed g) =
      .ok (mkSimulation dim n b seed g) := by
  constructor
  · show max 0 (min b (n - 1)) = 0
    have h1 : min b (n - 1) ≤ n - 1 := min_le_right _ _
    omega
  · have hn : n.toNat = 0 := Int.toNat_of_nonpos h
    simp [generate_samples, has_run, mkSimulation, hn, runSteps]

/-- Witness for C4 (amended): the theorem applied at `num_iterations = -3`. -/
theorem C4_amended_no_validation_witness :
    (-3 : ℤ) ≤ 0 ∧
    ((mkSimulation 2 (-3) 5 (some 42) 0).burn_in = 0 ∧
      generate_samples flatLogDensity (mkSimulation 2 (-3) 5 (some 42) 0) =
        .ok (mkSimulation 2 (-3) 5 (some 42) 0)) :=
  ⟨by decide, C4_amended_no_validation flatLogDensity 2 (-3) 5 (some 42) 0 (by decide)⟩

/-- C3: on every simulation on which `has_run()` is true,
`generate_samples()` raises (the `ValueError` standing for the spec's
StateError) without performing any stepping; after `reset()`, `has_run()`
reports false and a fresh run succeeds. -/
theorem C3_second_run_raises_reset_recovers (ld : Point → ℚ) (s : SimState)
    (h : has_run s = true) :
    generate_samples ld s =
      .error "Please reset the algorithm before running it again." ∧
    has_run (reset s) = false ∧
    generate_samples ld (reset s) =
      .ok (runSteps ld s.num_iterations.toNat (reset s)) := by
  refine ⟨by simp [generate_samples, h], by simp [has_run, reset], ?_⟩
  simp [generate_samples, has_run, reset]

/-- Witness for C3: the theorem applied to a concrete already-run
simulation state. -/
theorem C3_second_run_raises_reset_recovers_witness :
    has_run (⟨2, 0, 1, [[0], [1]], 1, 0⟩ : SimState) = true ∧
    (generate_samples flatLogDensity (⟨2, 0, 1, [[0], [1]], 1, 0⟩ : SimState) =
      .error "Please reset the algorithm before running it again." ∧
    has_run (reset (⟨2, 0, 1, [[0], [1]], 1, 0⟩ : SimState)) = false ∧
    generate_samples flatLogDensity (reset (⟨2, 0, 1, [[0], [1]], 1, 0⟩ : SimState)) =
      .ok (runSteps flatLogDensity
        (⟨2, 0, 1, [[0], [1]], 1, 0⟩ : SimState).num_iterations.toNat
        (reset (⟨2, 0, 1, [[0], [1]], 1, 0⟩ : SimState)))) :=
  ⟨by decide, C3_second_run_raises_reset_recovers flatLogDensity _ (by decide)⟩

/-- C1 counterexample: a concrete completed simulation — constructed with
`num_iterations = 2` and requested burn-in `5`, so the stored burn-in clamps
to `num_iterations - 1 = 1` — for which `expected_squared_jump_distance()`
returns `9`, not `0`.  A completed chain has `num_iterations + 1` states, so
with the clamped burn-in there are always two post-burn-in states and the
value is the squared final jump; the claim that the result equals `0`
whenever `burn_in ≥ num_iterations - 1` is therefore false. -/
theorem C1_counterexample_nonzero_esjd_at_max_burn_in :
    (runOnce flatLogDensity 1 2 5 (some 7) 0).burn_in =
      (runOnce flatLogDensity 1 2 5 (some 7) 0).num_iterations - 1 ∧
    (runOnce flatLogDensity 1 2 5 (some 7) 0).chain.length =
      (runOnce flatLogDensity 1 2 5 (some 7) 0).num_iterations.toNat + 1 ∧
    expected_squared_jump_distance (runOnce flatLogDensity 1 2 5 (some 7) 0) =
      .ok 9 ∧
    expected_squared_jump_distance (runOnce flatLogDensity 1 2 5 (some 7) 0) ≠
      .ok 0 := by
  refine ⟨?_, ?_, ?_, ?_⟩ <;> with_unfolding_all decide

/-- C1 (amended): for every completed simulation (chain of
`num_iterations + 1` states with the stored burn-in inside its clamp
interval), `expected_squared_jump_distance()` returns the mean of the
squared Euclidean distances between consecutive states of the chain suffix
that starts at the burn-in index.  At least one post-burn-in jump always
exists, so the `0` fallback branch is unreachable for completed runs — in
particular, for `burn_in = num_iterations - 1` the value is the squared
final jump, not `0` in general. -/
theorem C1_amended_esjd_mean_post_burn_in (s : SimState)
    (hlen : s.chain.length = s.num_iterations.toNat + 1)
    (hn : 1 ≤ s.num_iterations)
    (hb0 : 0 ≤ s.burn_in) (hb1 : s.burn_in ≤ s.num_iterations - 1) :
    expected_squared_jump_distance s =
      .ok (meanQ (squaredJumps (s.chain.drop s.burn_in.toNat))) := by
  have hrun : has_run s = true := by
    simp only [has_run, decide_eq_true_eq]
    omega
  by_cases hb : s.burn_in = 0
  · have hcond : ¬ (s.burn_in > 0 ∧ (s.chain.length : ℤ) > s.burn_in + 1) := by
      rw [hb]; simp
    simp [expected_squared_jump_distance, hrun, hb, hcond]
  · have hcond : s.burn_in > 0 ∧ (s.chain.length : ℤ) > s.burn_in + 1 := by
      constructor <;> omega
    simp [expected_squared_jump_distance, hrun, hcond]

/-- Witness for C1 (amended): the theorem applied to a concrete completed
two-iteration run. -/
theorem C1_amended_esjd_mean_post_burn_in_witness :
    (runOnce flatLogDensity 1 2 0 (some 7) 0).chain.length =
      (runOnce flatLogDensity 1 2 0 (some 7) 0).num_iterations.toNat + 1 ∧
    1 ≤ (runOnce flatLogDensity 1 2 0 (some 7) 0).num_iterations ∧
    0 ≤ (runOnce flatLogDensity 1 2 0 (some 7) 0).burn_in ∧
    (runOnce flatLogDensity 1 2 0 (some 7) 0).burn_in ≤
      (runOnce flatLogDensity 1 2 0 (some 7) 0).num_iterations - 1 ∧
    expected_squared_jump_distance (runOnce flatLogDensity 1 2 0 (some 7) 0) =
      .ok (meanQ (squaredJumps
        ((runOnce flatLogDensity 1 2 0 (some 7) 0).chain.drop
          (runOnce flatLogDensity 1 2 0 (some 7) 0).burn_in.toNat))) :=
  ⟨by with_unfolding_all decide, by with_unfolding_all decide,
    by with_unfolding_all decide, by with_unfolding_all decide,
    C1_amended_esjd_mean_post_burn_in _ (by with_unfolding_all decide)
      (by with_unfolding_all decide) (by with_unfolding_all decide)
      (by with_unfolding_all decide)⟩

/-- C2 counterexample: with seed `0` — a value of the configuration tuple —
the constructor performs no seeding at all, so the chain depends on the
ambient process-global generator state: running the very same configuration
tuple twice in succession (the second construction starting from the
generator state the first run left behind) produces two different chains. -/
theorem C2_counterexample_seed_zero_not_reproducible :
    (runOnce flatLogDensity 1 2 0 (some 0) 0).chain ≠
    (runOnce flatLogDensity 1 2 0 (some 0)
      ((runOnce flatLogDensity 1 2 0 (some 0) 0).rng)).chain := by
  with_unfolding_all decide

/-- C2 (amended): the randomness comes from the process-global generator
(not a generator owned by the MHAlgorithm), reseeded at construction only
when the seed is truthy; for every nonzero seed, running the identical
configuration tuple from any two ambient generator states produces
bit-identical simulations, chains included. -/
theorem C2_amended_nonzero_seed_reproducible (ld : Point → ℚ) (dim : ℕ)
    (n b : ℤ) (sd : ℤ) (g g' : ℕ) (hs : sd ≠ 0) :
    runOnce ld dim n b (some sd) g = runOnce ld dim n b (some sd) g' := by
  have hmk : mkSimulation dim n b (some sd) g =
      mkSimulation dim n b (some sd) g' := by
    simp [mkSimulation, seedEffect, hs]
  simp [runOnce, hmk]

/-- Witness for C2 (amended): the theorem applied at seed `7` and two
different ambient generator states. -/
theorem C2_amended_nonzero_seed_reproducible_witness :
    (7 : ℤ) ≠ 0 ∧
    runOnce flatLogDensity 1 2 0 (some 7) 0 =
      runOnce flatLogDensity 1 2 0 (some 7) 123 :=
  ⟨by decide,
    C2_amended_nonzero_seed_reproducible flatLogDensity 1 2 0 7 0 123
      (by decide)⟩

/-- C5: for every simulation state reachable through the public interface
that has not reached the Completed state (its chain does not have
`num_iterations + 1` entries), both `acceptance_rate()` and
`expected_squared_jump_distance()` fail with the `ValueError` standing for
the spec's StateError rather than returning a value. -/
theorem C5_diagnostics_error_before_completion (ld : Point → ℚ)
    (s : SimState) (h : Reachable ld s)
    (hnc : s.chain.length ≠ s.num_iterations.toNat + 1) :
    acceptance_rate s = .error "The algorithm has not been run yet." ∧
    expected_squared_jump_distance s =
      .error "The algorithm has not been run yet." := by
  have hlen : s.chain.length = 1 := by
    rcases reachable_chain_length ld s h with h1 | h2
    · exact h1
    · exact absurd h2 hnc
  have hr : has_run s = false := by
    simp [has_run, hlen]
  constructor
  · simp [acceptance_rate, hr]
  · simp [expected_squared_jump_distance, hr]

/-- Witness for C5: the theorem applied to a freshly constructed (hence
reachable, not completed) two-iteration simulation. -/
theorem C5_diagnostics_error_before_completion_witness :
    (mkSimulation 1 2 0 none 0).chain.length ≠
      (mkSimulation 1 2 0 none 0).num_iterations.toNat + 1 ∧
    (acceptance_rate (mkSimulation 1 2 0 none 0) =
      .error "The algorithm has not been run yet." ∧
    expected_squared_jump_distance (mkSimulation 1 2 0 none 0) =
      .error "The algorithm has not been run yet.") :=
  ⟨by decide,
    C5_diagnostics_error_before_completion flatLogDensity _
      (Reachable.init 1 2 0 none 0) (by decide)⟩

/-- C7: for every target or proposal name outside the supported catalogue,
the sweep fails immediately with the `ValueError` standing for the spec's
ConfigurationError, and because the failure precedes the `json.dump` at the
end of `run_study`, no output record is produced — the run ends in
`Except.error` instead of an `ok` record. -/
theorem C7_unknown_name_no_record (simulate : ProposalConfig → ℚ × ℚ)
    (dim : ℤ) (target_name : String) (num_iters : ℤ) (var_max : ℚ)
    (seed : ℤ) (proposal_name : String) (n1 n2 J K : ℤ)
    (h : target_name ∉ supportedTargets ∨ proposal_name ∉ supportedProposals) :
    ∃ e, run_study simulate dim target_name num_iters var_max seed
        proposal_name n1 n2 J K = .error e := by
  by_cases ht : target_name ∈ supportedTargets
  · have hp : proposal_name ∉ supportedProposals := by
      rcases h with h1 | h2
      · exact absurd ht h1
      · exact h2
    have hgt : get_target_distribution target_name = .ok target_name := by
      simp [get_target_distribution, ht]
    have hne : linspace (1 / 100 : ℚ) var_max 40 ≠ [] := by
      intro h0
      have hl := linspace_length (1 / 100 : ℚ) var_max 40
      rw [h0] at hl
      simp at hl
    refine ⟨"Unknown proposal name: " ++ proposal_name, ?_⟩
    simp only [run_study, hgt]
    rw [sweepLoop_unknown_proposal simulate proposal_name hp _ _ hne]
  · refine ⟨"Unknown target distribution name", ?_⟩
    simp [run_study, get_target_distribution, ht]

/-- Witness for C7: the theorem applied to the unsupported target name
`Banana`. -/
theorem C7_unknown_name_no_record_witness :
    ("Banana" ∉ supportedTargets ∨ "Normal" ∉ supportedProposals) ∧
    (∃ e, run_study constSimulate 20 "Banana" 100 (7 / 2) 42 "Normal"
        3 5 5 3 = .error e) :=
  ⟨Or.inl (by decide),
    C7_unknown_name_no_record constSimulate 20 "Banana" 100 (7 / 2) 42
      "Normal" 3 5 5 3 (Or.inl (by decide))⟩

/-- C8: for every completed sweep, `run_study` selects the grid point
maximizing ESJD — the persisted `max_esjd` is the maximum of the ESJD
series (an upper bound of every entry, attained at the argmax index), and
`max_scale_param` and `max_acceptance_rate` are the scale parameter and the
acceptance rate at that same grid index, which is in range. -/
theorem C8_run_study_selects_argmax (simulate : ProposalConfig → ℚ × ℚ)
    (dim : ℤ) (target_name : String) (num_iters : ℤ) (var_max : ℚ)
    (seed : ℤ) (proposal_name : String) (n1 n2 J K : ℤ) (d : StudyData)
    (h : run_study simulate dim target_name num_iters var_max seed
        proposal_name n1 n2 J K = .ok d) :
    (∀ x ∈ d.expected_squared_jump_distances, x ≤ d.max_esjd) ∧
    d.max_esjd = maxList d.expected_squared_jump_distances ∧
    d.expected_squared_jump_distances.getD
      (argmaxIdx d.expected_squared_jump_distances) 0 = d.max_esjd ∧
    d.max_scale_param = d.scale_param_range.getD
      (argmaxIdx d.expected_squared_jump_distances) 0 ∧
    d.max_acceptance_rate = d.acceptance_rates.getD
      (argmaxIdx d.expected_squared_jump_distances) 0 ∧
    argmaxIdx d.expected_squared_jump_distances <
      d.scale_param_range.length := by
  simp only [run_study] at h
  split at h
  · exact absurd h (by simp)
  · split at h
    · exact absurd h (by simp)
    next results heq =>
      injection h with h
      subst h
      have hlr : results.length = (linspace (1 / 100 : ℚ) var_max 40).length :=
        sweepLoop_ok_length _ _ _ _ _ heq
      have h40 : (linspace (1 / 100 : ℚ) var_max 40).length = 40 :=
        linspace_length _ _ _
      have hmapne : results.map Prod.snd ≠ [] := by
        intro h0
        have hml : (results.map Prod.snd).length = 40 := by
          rw [List.length_map, hlr, h40]
        rw [h0] at hml
        simp at hml
      have hlt := argmaxIdx_lt (results.map Prod.snd) hmapne
      rw [List.length_map, hlr] at hlt
      exact ⟨fun x hx => maxList_ge _ x hx, rfl,
        getD_argmaxIdx _ hmapne, rfl, rfl, hlt⟩

/-- The sweep loop run with a constant per-grid-point outcome and the
`Normal` proposal succeeds on every grid, recording the outcome once per
grid point. -/
theorem sweepLoop_const_normal (v : ℚ × ℚ) (d : ℤ) :
    ∀ l : List ℚ,
      sweepLoop (fun _ => v) "Normal" d l = .ok (l.map (fun _ => v))
  | [] => rfl
  | a :: t => by
    have ih := sweepLoop_const_normal v d t
    simp [sweepLoop, mkProposalConfig, ih]

/-- The concrete witness sweep completes and persists its record. -/
theorem studyRunExample_ok : studyRunExample = .ok studyDataExample := by
  have hex : ∃ x, studyRunExample = .ok x := by
    show ∃ x, run_study constSimulate 2 "MultivariateNormal" 10 (7 / 2) 42
      "Normal" 3 5 5 3 = .ok x
    have hgt : get_target_distribution "MultivariateNormal" =
        .ok "MultivariateNormal" := by decide
    have hsw := sweepLoop_const_normal (1 / 2, 3)
    simp only [run_study, hgt, constSimulate, hsw]
    exact ⟨_, rfl⟩
  obtain ⟨x, hx⟩ := hex
  show studyRunExample = .ok (studyRunExample.toOption.getD emptyStudyData)
  rw [hx]
  rfl

/-- Witness for C8: the theorem applied to the concrete witness sweep. -/
theorem C8_run_study_selects_argmax_witness :
    studyRunExample = .ok studyDataExample ∧
    studyDataExample.max_esjd =
      maxList studyDataExample.expected_squared_jump_distances ∧
    argmaxIdx studyDataExample.expected_squared_jump_distances <
      studyDataExample.scale_param_range.length :=
  ⟨studyRunExample_ok,
    (C8_run_study_selects_argmax constSimulate 2 "MultivariateNormal" 10
      (7 / 2) 42 "Normal" 3 5 5 3 studyDataExample studyRunExample_ok).2.1,
    (C8_run_study_selects_argmax constSimulate 2 "MultivariateNormal" 10
      (7 / 2) 42 "Normal" 3 5 5 3 studyDataExample
      studyRunExample_ok).2.2.2.2.2⟩

end RWM
